import Mathlib

/-!
Verification of the authentication & authorization gateway of the
MCP-react-geodjango repository: a shallow embedding of
`backend/authentication/keycloak_auth.py`, `middleware.py`,
`admin_keycloak.py` and `user_sync.py`, followed by theorems checking the
natural-language specification against the embedded code.

Modelling conventions:
* Python JSON-ish values are modelled by the inductive `JVal`; dicts are
  association lists `List (String × JVal)` (keys unique in practice, lookup
  takes the first match, like a dict).
* `time.time()` is modelled with integer instants (sub-second resolution is
  irrelevant to the TTL logic).
* Network calls (`requests.get`, `requests.post`) are modelled by explicit
  function parameters / environment fields giving their outcome; an
  exception raised by them is an `Except.error`.
* A Python function that can raise an exception which the function itself
  does not catch returns `Except String _`, the error string naming the
  exception.
-/

namespace MCPAuth

/-- A Python/JSON value as it appears in decoded token payloads. -/
inductive JVal where
  | str (s : String)
  | num (n : Int)
  | bool (b : Bool)
  | null
  | arr (xs : List JVal)
  | obj (fields : List (String × JVal))

/-- A decoded payload / JSON object: association list, first binding wins. -/
abbrev Dict := List (String × JVal)

/-- Python `d.get(k)` on a dict: `none` models Python `None`. -/
def pyDictGet (d : Dict) (k : String) : Option JVal :=
  (d.find? (fun p => p.1 = k)).map (fun p => p.2)

/-- Python `v == s` where `s` is a `str`: only equal strings compare equal. -/
def jvalIsStrEq (v : JVal) (s : String) : Bool :=
  match v with
  | JVal.str x => x == s
  | _ => false

/-- Python `type(v).__name__` for the values of `JVal`. -/
def pyTypeName : JVal → String
  | JVal.str _ => "str"
  | JVal.num _ => "int"
  | JVal.bool _ => "bool"
  | JVal.null => "NoneType"
  | JVal.arr _ => "list"
  | JVal.obj _ => "dict"

/-- Python `required_role in roles` after the `isinstance(roles, list)` guard:
`false` whenever the value is absent or not a list. -/
def rolesListHas (v : Option JVal) (role : String) : Bool :=
  match v with
  | some (JVal.arr l) => l.any (fun x => jvalIsStrEq x role)
  | _ => false

/-- The `aud` checks of `_audience_ok` (lines 112-118): a string equal to
the client id, or a list containing it. -/
def audClaimHit (payload : Dict) (client_id : String) : Bool :=
  match pyDictGet payload "aud" with
  | some (JVal.str a) => a == client_id
  | some (JVal.arr l) => l.any (fun v => jvalIsStrEq v client_id)
  | _ => false

/-- The `azp` check of `_audience_ok` (lines 120-122). -/
def azpClaimHit (payload : Dict) (client_id : String) : Bool :=
  match pyDictGet payload "azp" with
  | some (JVal.str z) => z == client_id
  | _ => false

/-- Embeds `_audience_ok` of `keycloak_auth.py` (lines 111-124): the `aud`
checks return early on success, otherwise the `azp` check decides. -/
def _audience_ok (payload : Dict) (client_id : String) : Bool :=
  if audClaimHit payload client_id then true
  else azpClaimHit payload client_id

/-- The resource-access half of `_token_has_role` (lines 100-106): the
per-client role list keyed by the client id, with `isinstance` guards. -/
def clientRoleHit (payload : Dict) (client_id required_role : String) : Bool :=
  match (pyDictGet payload "resource_access").getD (JVal.obj []) with
  | JVal.obj roFields =>
    match pyDictGet roFields client_id with
    | some (JVal.obj coFields) => rolesListHas (pyDictGet coFields "roles") required_role
    | _ => false
  | _ => false

/-- Embeds `_token_has_role` of `keycloak_auth.py` (lines 95-108).
`payload.get("realm_access", {}).get("roles")` raises `AttributeError`
when `realm_access` is present but not a dict; this is the `Except.error`
case.  All resource-access lookups are guarded by `isinstance` checks in
the source and so never raise. -/
def _token_has_role (payload : Dict) (client_id required_role : String) :
    Except String Bool :=
  match (pyDictGet payload "realm_access").getD (JVal.obj []) with
  | JVal.obj raFields =>
    if rolesListHas (pyDictGet raFields "roles") required_role then Except.ok true
    else if clientRoleHit payload client_id required_role then Except.ok true
    else Except.ok false
  | other =>
    Except.error ("AttributeError: '" ++ pyTypeName other ++ "' object has no attribute 'get'")

/-- The audience rule as the spec words it: the `aud` claim (a string, or an
element of a list) equals the client id, or the `azp` claim equals it. -/
def audienceSpec (payload : Dict) (client_id : String) : Prop :=
  pyDictGet payload "aud" = some (JVal.str client_id)
  ∨ (∃ l, pyDictGet payload "aud" = some (JVal.arr l) ∧ JVal.str client_id ∈ l)
  ∨ pyDictGet payload "azp" = some (JVal.str client_id)

/-- The role rule as the spec words it: the required role appears in the
realm-level role list, or in the per-client role list keyed by the client
id under the resource-access map. -/
def roleSpec (payload : Dict) (client_id required_role : String) : Prop :=
  (∃ o l, pyDictGet payload "realm_access" = some (JVal.obj o)
      ∧ pyDictGet o "roles" = some (JVal.arr l) ∧ JVal.str required_role ∈ l)
  ∨ (∃ ro co l, pyDictGet payload "resource_access" = some (JVal.obj ro)
      ∧ pyDictGet ro client_id = some (JVal.obj co)
      ∧ pyDictGet co "roles" = some (JVal.arr l) ∧ JVal.str required_role ∈ l)

/-- Holds when `realm_access` is absent or a mapping (the shapes on which
`_token_has_role` does not raise). -/
def realmAccessWellFormed (payload : Dict) : Prop :=
  match pyDictGet payload "realm_access" with
  | none => True
  | some (JVal.obj _) => True
  | some _ => False

/-! ### Python string helpers: `str.split()`, `str.strip()`, `str.lower()` -/

/-- The whitespace characters of Python `str.split()` / `str.strip()`
(ASCII; exotic Unicode spaces are not relevant to these headers). -/
def isPySpace (c : Char) : Bool :=
  c == ' ' || c == '\t' || c == '\n' || c == '\r' || c == '\x0b' || c == '\x0c'

/-- Accumulator core of no-argument `str.split()`: splits on runs of
whitespace and never yields an empty token. -/
def splitAux : List Char → List Char → List (List Char)
  | [], acc => if acc.isEmpty then [] else [acc.reverse]
  | c :: cs, acc =>
    if isPySpace c then
      if acc.isEmpty then splitAux cs [] else acc.reverse :: splitAux cs []
    else splitAux cs (c :: acc)

/-- Python `s.split()` with no arguments. -/
def pySplit (s : String) : List String :=
  (splitAux s.data []).map (fun l => String.mk l)

/-- Python `s.strip()` with no arguments. -/
def pyStrip (s : String) : String :=
  String.mk (((s.data.dropWhile isPySpace).reverse.dropWhile isPySpace).reverse)

/-- Python `s.lower()` (ASCII case mapping, which is all the source compares). -/
def pyLower (s : String) : String :=
  String.mk (s.data.map Char.toLower)

/-- Python `s.startswith(pre)`, computed structurally on the characters. -/
def pyStartsWith (s pre : String) : Bool :=
  s.data.take pre.data.length == pre.data

/-- Python `s.endswith(suf)`, computed structurally on the characters. -/
def pyEndsWith (s suf : String) : Bool :=
  s.data.reverse.take suf.data.length == suf.data.reverse

/-- Embeds `_extract_bearer_token` of `keycloak_auth.py` (lines 84-92). -/
def _extract_bearer_token (auth_header : String) : Option String :=
  if auth_header = "" then none
  else
    match pySplit auth_header with
    | [p0, p1] =>
      if pyLower p0 = "bearer" then
        if pyStrip p1 = "" then none else some (pyStrip p1)
      else none
    | _ => none

/-! ### Provider configuration and derived URLs (`keycloak_auth.py` 13-27, 55-73) -/

/-- Python `s.rstrip("/")`. -/
def pyRstripSlash (s : String) : String :=
  String.mk (s.data.reverse.dropWhile (fun c => c == '/')).reverse

/-- Python `s[: -n]` for `n ≤ len(s)`. -/
def pyDropRight (s : String) (n : Nat) : String :=
  String.mk (s.data.take (s.data.length - n))

structure KeycloakConfig where
  url : String
  realm : String
  client_id : String
  required_role : String
  clock_skew_seconds : Int
deriving DecidableEq

/-- The `KeycloakConfig.issuer` property. -/
def KeycloakConfig.issuer (c : KeycloakConfig) : String :=
  pyRstripSlash c.url ++ "/realms/" ++ c.realm

/-- The `KeycloakConfig.jwks_url` property. -/
def KeycloakConfig.jwks_url (c : KeycloakConfig) : String :=
  pyRstripSlash c.url ++ "/realms/" ++ c.realm ++ "/protocol/openid-connect/certs"

/-- Embeds `_alt_base_url` (lines 55-59): strip a trailing `/auth` segment. -/
def _alt_base_url (url : String) : Option String :=
  let base := pyRstripSlash url
  if pyEndsWith base "/auth" then some (pyDropRight base 5) else none

/-- Embeds `_alt_issuer` (lines 62-66); `if not alt_base` treats `""` as falsy. -/
def _alt_issuer (c : KeycloakConfig) : Option String :=
  match _alt_base_url c.url with
  | none => none
  | some b => if b = "" then none else some (b ++ "/realms/" ++ c.realm)

/-- Embeds `_alt_jwks_url` (lines 69-73). -/
def _alt_jwks_url (c : KeycloakConfig) : Option String :=
  match _alt_base_url c.url with
  | none => none
  | some b =>
    if b = "" then none
    else some (b ++ "/realms/" ++ c.realm ++ "/protocol/openid-connect/certs")

/-! ### The JWKS cache (`keycloak_auth.py` 30-48)

A JWK entry carries its `kid`, whether `RSAAlgorithm.from_jwk` succeeds on
it, and an identifier of the public-key material it contains.  A fetched
JWKS document is `none` when its `keys` member is missing or not a list
(the `Invalid JWKS` case of `_find_jwk`). -/

structure Jwk where
  kid : String
  buildOk : Bool
  material : String
deriving DecidableEq

/-- The parsed body of a JWKS response: `some keys` when the `keys` member
is a list (non-dict entries of the source list are skipped by `_find_jwk`
and are not modelled). -/
abbrev JwksDoc := Option (List Jwk)

structure JwksCache where
  jwks : Option JwksDoc
  fetched_at : Int
  ttl_seconds : Int
deriving DecidableEq

/-- Embeds `JwksCache.get` (lines 36-45).  `fetch` gives the outcome of
`requests.get(url) / raise_for_status / json()`; its `Except.error` is the
requests exception, which `get` does not catch.  The third component
counts invocations of `fetch` (0 or 1). -/
def JwksCache.get (c : JwksCache) (fetch : String → Except String JwksDoc)
    (now : Int) (url : String) : Except String JwksDoc × JwksCache × Nat :=
  match c.jwks with
  | some j =>
    if now - c.fetched_at < c.ttl_seconds then (Except.ok j, c, 0)
    else
      match fetch url with
      | Except.error e => (Except.error e, c, 1)
      | Except.ok d => (Except.ok d, { c with jwks := some d, fetched_at := now }, 1)
  | none =>
    match fetch url with
    | Except.error e => (Except.error e, c, 1)
    | Except.ok d => (Except.ok d, { c with jwks := some d, fetched_at := now }, 1)

/-- A sequence of `JwksCache.get` calls at the given instants (same URL),
returning the final cache and the total number of fetches. -/
def runGetCalls (c : JwksCache) (fetch : String → Except String JwksDoc)
    (url : String) : List Int → JwksCache × Nat
  | [] => (c, 0)
  | t :: ts =>
    match JwksCache.get c fetch t url with
    | (_, c2, n) =>
      match runGetCalls c2 fetch url ts with
      | (c3, m) => (c3, n + m)

/-! ### The token and `jwt.decode` (`keycloak_auth.py` 76-81, 127-205)

A bearer token string is mapped to its structural content by an
environment function `tokenOf`; the structure records what the PyJWT
calls on the token string observe: whether `get_unverified_header`
succeeds, the header `kid` (absent or non-string collapse to `none`),
the set of key materials that verify the RS256 signature, the `nbf` and
`exp` claims, and the decoded payload. -/

structure Token where
  headerOk : Bool
  kid : Option String
  sigKeys : List String
  nbf : Option Int
  exp : Option Int
  payload : Dict

inductive JwtErr where
  | invalidSignature
  | immature
  | expired
  | invalidIssuer
  | missingIssClaim
deriving DecidableEq

/-- PyJWT `jwt.decode(token, key, algorithms=["RS256"], issuer=..., leeway=...)`
with `verify_aud` and `verify_iat` off, in PyJWT's checking order:
signature, then `nbf`, then `exp`, then `iss`.  PyJWT raises
`ImmatureSignatureError` when `nbf > now + leeway`, and
`ExpiredSignatureError` when `exp <= now - leeway`; a missing `iss` claim
with an expected issuer raises `MissingRequiredClaimError` (a generic
`PyJWTError`), a non-matching one raises `InvalidIssuerError`. -/
def pyjwt_decode (t : Token) (material : String) (issuer : String)
    (leeway now : Int) : Except JwtErr Dict :=
  if ¬ t.sigKeys.contains material then Except.error JwtErr.invalidSignature
  else if (match t.nbf with | some n => decide (now + leeway < n) | none => false) then
    Except.error JwtErr.immature
  else if (match t.exp with | some e => decide (e ≤ now - leeway) | none => false) then
    Except.error JwtErr.expired
  else
    match pyDictGet t.payload "iss" with
    | none => Except.error JwtErr.missingIssClaim
    | some v => if jvalIsStrEq v issuer then Except.ok t.payload
                else Except.error JwtErr.invalidIssuer

/-- A validator-level failure: `tokenError` is a raised `TokenError`;
`exn` is any other exception escaping `validate_keycloak_jwt` uncaught. -/
inductive VErr where
  | tokenError (msg : String)
  | exn (msg : String)
deriving DecidableEq

/-- Python `repr` for the payload values that can appear as `iss`
(`{iss!r}` in the source's f-string); nested containers are summarised. -/
def jvalReprShallow : Option JVal → String
  | none => "None"
  | some (JVal.str s) => "'" ++ s ++ "'"
  | some (JVal.num n) => toString n
  | some (JVal.bool true) => "True"
  | some (JVal.bool false) => "False"
  | some JVal.null => "None"
  | some (JVal.arr _) => "[...]"
  | some (JVal.obj _) => "{...}"

/-- The message of line 188-190: names the actual `iss` and both expected
issuers. -/
def invalidIssuerBothMsg (issRepr primary alt : String) : String :=
  "Invalid issuer (iss=" ++ issRepr ++ "). Expected '" ++ primary ++ "' or '" ++ alt ++ "'"

/-- The message of line 195: names the actual `iss` and the sole expected
issuer. -/
def invalidIssuerOneMsg (issRepr primary : String) : String :=
  "Invalid issuer (iss=" ++ issRepr ++ "). Expected '" ++ primary ++ "'"

/-- Embeds the `try: payload = _decode_with_issuer(config.issuer) ...`
block of `validate_keycloak_jwt` (lines 162-199), including the
alternate-issuer retry. -/
def decode_stage (cfg : KeycloakConfig) (t : Token) (material : String)
    (now : Int) : Except VErr Dict :=
  let leeway := max 0 cfg.clock_skew_seconds
  match pyjwt_decode t material cfg.issuer leeway now with
  | Except.ok p => Except.ok p
  | Except.error JwtErr.expired => Except.error (VErr.tokenError "Token expired")
  | Except.error JwtErr.immature => Except.error (VErr.tokenError "Token not yet valid (nbf/iat)")
  | Except.error JwtErr.invalidSignature => Except.error (VErr.tokenError "Invalid token signature")
  | Except.error JwtErr.missingIssClaim =>
    Except.error (VErr.tokenError "Token validation failed: Token is missing the \"iss\" claim")
  | Except.error JwtErr.invalidIssuer =>
    match _alt_issuer cfg with
    | some alt =>
      if alt ≠ cfg.issuer then
        match pyjwt_decode t material alt leeway now with
        | Except.ok p => Except.ok p
        | Except.error _ =>
          Except.error (VErr.tokenError
            (invalidIssuerBothMsg (jvalReprShallow (pyDictGet t.payload "iss")) cfg.issuer alt))
      else
        Except.error (VErr.tokenError
          (invalidIssuerOneMsg (jvalReprShallow (pyDictGet t.payload "iss")) cfg.issuer))
    | none =>
      Except.error (VErr.tokenError
        (invalidIssuerOneMsg (jvalReprShallow (pyDictGet t.payload "iss")) cfg.issuer))

/-- Embeds the audience check and role extraction at the end of
`validate_keycloak_jwt` (lines 201-205).  A raise inside
`_token_has_role` escapes uncaught (there is no surrounding `try`). -/
def post_decode (cfg : KeycloakConfig) (payload : Dict) : Except VErr (Dict × Bool) :=
  if ¬ _audience_ok payload cfg.client_id then
    Except.error (VErr.tokenError "Invalid audience")
  else
    match _token_has_role payload cfg.client_id cfg.required_role with
    | Except.error m => Except.error (VErr.exn m)
    | Except.ok b => Except.ok (payload, b)

/-- Embeds `_find_jwk` (lines 141-145). -/
def find_jwk (doc : JwksDoc) (kid : String) : Except VErr (Option Jwk) :=
  match doc with
  | none => Except.error (VErr.tokenError "Invalid JWKS")
  | some keys => Except.ok (keys.find? (fun k => k.kid == kid))

/-- Result of one `validate_keycloak_jwt` run: the outcome, the JWKS cache
left behind, and the number of JWKS fetches performed. -/
structure VOut where
  result : Except VErr (Dict × Bool)
  cache : JwksCache
  fetches : Nat

/-- Key-building and decode tail of `validate_keycloak_jwt` (157-205). -/
def validate_with_key (cfg : KeycloakConfig) (t : Token) (jwk : Jwk)
    (now : Int) (cache : JwksCache) (n : Nat) : VOut :=
  if ¬ jwk.buildOk then ⟨Except.error (VErr.tokenError "Failed to build public key"), cache, n⟩
  else
    match decode_stage cfg t jwk.material now with
    | Except.error ve => ⟨Except.error ve, cache, n⟩
    | Except.ok p => ⟨post_decode cfg p, cache, n⟩

/-- Key lookup of `validate_keycloak_jwt` (lines 147-155), then the tail. -/
def validate_find_key (cfg : KeycloakConfig) (t : Token) (kid : String)
    (fetch : String → Except String JwksDoc) (now : Int) (cache : JwksCache) : VOut :=
  match JwksCache.get cache fetch now cfg.jwks_url with
  | (Except.error e, c1, n1) => ⟨Except.error (VErr.exn e), c1, n1⟩
  | (Except.ok doc1, c1, n1) =>
    match find_jwk doc1 kid with
    | Except.error ve => ⟨Except.error ve, c1, n1⟩
    | Except.ok (some jwk) => validate_with_key cfg t jwk now c1 n1
    | Except.ok none =>
      match _alt_jwks_url cfg with
      | some alt =>
        if alt ≠ cfg.jwks_url then
          match JwksCache.get c1 fetch now alt with
          | (Except.error e, c2, n2) => ⟨Except.error (VErr.exn e), c2, n1 + n2⟩
          | (Except.ok doc2, c2, n2) =>
            match find_jwk doc2 kid with
            | Except.error ve => ⟨Except.error ve, c2, n1 + n2⟩
            | Except.ok (some jwk) => validate_with_key cfg t jwk now c2 (n1 + n2)
            | Except.ok none =>
              ⟨Except.error (VErr.tokenError "Signing key not found"), c2, n1 + n2⟩
        else ⟨Except.error (VErr.tokenError "Signing key not found"), c1, n1⟩
      | none => ⟨Except.error (VErr.tokenError "Signing key not found"), c1, n1⟩

/-- Embeds `validate_keycloak_jwt` (lines 127-205).  `tokenOf` maps the
extracted bearer-token string to its structural content; `fetch` gives
the outcome of each JWKS HTTP fetch; `now` is the current time. -/
def validate_keycloak_jwt (cfg : KeycloakConfig) (cache : JwksCache)
    (fetch : String → Except String JwksDoc) (tokenOf : String → Token)
    (now : Int) (auth_header : String) : VOut :=
  match _extract_bearer_token auth_header with
  | none => ⟨Except.error (VErr.tokenError "Missing bearer token"), cache, 0⟩
  | some tokStr =>
    let t := tokenOf tokStr
    if ¬ t.headerOk then ⟨Except.error (VErr.tokenError "Invalid token header"), cache, 0⟩
    else
      match t.kid with
      | none => ⟨Except.error (VErr.tokenError "Missing kid"), cache, 0⟩
      | some kid =>
        if kid = "" then ⟨Except.error (VErr.tokenError "Missing kid"), cache, 0⟩
        else validate_find_key cfg t kid fetch now cache

/-! ### The gateway middleware (`middleware.py` 32-69) -/

structure MwRequest where
  method : String
  path : String
  userAuthenticated : Bool
  userStaff : Bool
  authHeader : String
deriving DecidableEq

/-- The `JsonResponse({"detail": ..., "error": ...}, status=...)` bodies the
middleware produces. -/
structure JsonResp where
  status : Nat
  detail : String
  error : String
deriving DecidableEq

/-- Embeds `KeycloakRequiredMiddleware.process_request`.  `Except.ok none`
is "request proceeds"; `Except.ok (some r)` is an early JSON response;
`Except.error` is an exception the middleware does not catch (it only
catches `TokenError`).  The best-effort `upsert_user_from_keycloak` call
cannot alter the response and is not modelled here. -/
def process_request (cfg : KeycloakConfig) (cache : JwksCache)
    (fetch : String → Except String JwksDoc) (tokenOf : String → Token)
    (now : Int) (req : MwRequest) : Except String (Option JsonResp) × JwksCache :=
  if req.method = "OPTIONS" then (Except.ok none, cache)
  else if !pyStartsWith req.path "/api/" then (Except.ok none, cache)
  else if req.path = "/api/health/" then (Except.ok none, cache)
  else if req.userAuthenticated && req.userStaff then (Except.ok none, cache)
  else
    let v := validate_keycloak_jwt cfg cache fetch tokenOf now req.authHeader
    match v.result with
    | Except.error (VErr.tokenError m) => (Except.ok (some ⟨401, "Unauthorized", m⟩), v.cache)
    | Except.error (VErr.exn m) => (Except.error m, v.cache)
    | Except.ok (_, false) => (Except.ok (some ⟨403, "Forbidden", "Missing required role"⟩), v.cache)
    | Except.ok (_, true) => (Except.ok none, v.cache)

/-! ### The user provisioner (`user_sync.py`) -/

/-- The fields of a Django auth user that `upsert_user_from_keycloak`
reads or writes. -/
structure DjangoUser where
  username : String
  email : String
  first_name : String
  last_name : String
  is_active : Bool
  is_staff : Bool
  is_superuser : Bool
  has_usable_password : Bool
  last_login : Option Int
deriving DecidableEq

/-- Embeds `_split_name` (lines 9-15). -/
def _split_name (full_name : String) : String × String :=
  match (pySplit (pyStrip full_name)).filter (fun p => p ≠ "") with
  | [] => ("", "")
  | [p] => (p, "")
  | p :: rest => (p, String.intercalate " " rest)

/-- The username derivation loop of lines 27-32: first key among
`preferred_username, username, email, sub` whose value is a nonempty
string after `strip()`. -/
def usernameFromKeys : List String → Dict → Option String
  | [], _ => none
  | k :: ks, p =>
    match pyDictGet p k with
    | some (JVal.str v) =>
      if pyStrip v = "" then usernameFromKeys ks p else some (pyStrip v)
    | _ => usernameFromKeys ks p

/-- Python `payload.get(k)` when the source keeps it only if it is a `str`, else `""`. -/
def strFieldOrEmpty (p : Dict) (k : String) : String :=
  match pyDictGet p k with
  | some (JVal.str s) => s
  | _ => ""

/-- The update loop of `upsert_user_from_keycloak` (lines 64-87): email
and name fields change only when the claim value is nonempty and differs;
`last_login` is always refreshed (the `hasattr` check always holds on a
Django auth user). -/
def applyClaimUpdates (u : DjangoUser) (email first last : String) (now : Int) : DjangoUser :=
  let u1 := if email ≠ "" ∧ u.email ≠ email then { u with email := email } else u
  let u2 := if first ≠ "" ∧ u1.first_name ≠ first then { u1 with first_name := first } else u1
  let u3 := if last ≠ "" ∧ u2.last_name ≠ last then { u2 with last_name := last } else u2
  { u3 with last_login := some now }

/-- Embeds `upsert_user_from_keycloak` (lines 18-89) over a user table
modelled as a list keyed by `username`.  `now` is `timezone.now()`.
`get_or_create` finds a user by username or creates one with the given
defaults; `set_unusable_password` on a fresh user clears
`has_usable_password`.  The final save applies the update loop of lines
64-87 (on a freshly created user the loop changes nothing but
`last_login`, since its fields equal the payload-derived defaults). -/
def upsert_user_from_keycloak (db : List DjangoUser) (payload : Dict)
    (now : Int) : Option DjangoUser × List DjangoUser :=
  match usernameFromKeys ["preferred_username", "username", "email", "sub"] payload with
  | none => (none, db)
  | some username =>
    let email := strFieldOrEmpty payload "email"
    let first0 := strFieldOrEmpty payload "given_name"
    let last0 := strFieldOrEmpty payload "family_name"
    let name := strFieldOrEmpty payload "name"
    let names := if name ≠ "" ∧ first0 = "" ∧ last0 = "" then _split_name name else (first0, last0)
    match db.find? (fun u => u.username == username) with
    | none =>
      let u : DjangoUser :=
        { username := username, email := email, first_name := names.1,
          last_name := names.2, is_active := true, is_staff := false,
          is_superuser := false, has_usable_password := false,
          last_login := some now }
      (some u, db ++ [u])
    | some u0 =>
      let u4 := applyClaimUpdates u0 email names.1 names.2 now
      (some u4, db.map (fun w => if w.username == username then u4 else w))

/-! ### The PKCE admin login flow (`admin_keycloak.py`)

The `LoginSession` is the set of session keys the views touch; Django's
`logout()` flushes the whole session, `login()` for a previously
anonymous session keeps its data (`cycle_key`).  The outcomes of the two
outbound interactions (token-endpoint POST, and the validator run on the
returned access token) and of the user upsert are environment fields. -/

structure Session where
  kc_admin_state : Option String
  kc_admin_nonce : Option String
  kc_admin_verifier : Option String
  kc_admin_next : Option String
deriving DecidableEq

def emptySession : Session := ⟨none, none, none, none⟩

/-- Python truthiness of an optional GET/session string value. -/
def pyTruthyOpt : Option String → Bool
  | some s => s != ""
  | none => false

inductive LoginResp where
  | redirectAdmin
  | redirectAuthEndpoint
deriving DecidableEq

/-- Embeds `admin_keycloak_login` (lines 41-76): the already-staff early
redirect, storing `state`/`nonce`/`verifier`, and storing `next` only
when it starts with `/`.  The authorization-endpoint query string is not
needed by any claim and is not modelled. -/
def admin_keycloak_login (alreadyStaffSession : Bool)
    (state nonce verifier : String) (nextParam : Option String)
    (s : Session) : LoginResp × Session :=
  if alreadyStaffSession then (LoginResp.redirectAdmin, s)
  else
    let s1 : Session :=
      { s with kc_admin_state := some state, kc_admin_nonce := some nonce,
               kc_admin_verifier := some verifier }
    let s2 : Session :=
      match nextParam with
      | some n => if pyStartsWith n "/" then { s1 with kc_admin_next := some n } else s1
      | none => s1
    (LoginResp.redirectAuthEndpoint, s2)

inductive CbResp where
  | badRequest (msg : String)
  | forbidden (msg : String)
  | redirectTo (target : String)
deriving DecidableEq

/-- Environment of one `admin_keycloak_callback` run: the GET parameters
and the outcomes of the external calls the view makes. -/
structure CbEnv where
  error : Option String
  error_description : Option String
  code : Option String
  state : Option String
  exchange : Except String Unit
  access_token : Option String
  validation : Except String (Dict × Bool)
  mapped_user : Option DjangoUser

def roleForbiddenMsg : String := "Você não tem a role necessária (mcp) para acessar."

def staffForbiddenMsg : String := "Você não tem permissão (is_staff) para acessar o Django Admin."

/-- The 400 body for a provider-reported error (lines 84-89). -/
def kcErrorMsg (env : CbEnv) : String :=
  let err := env.error.getD ""
  if pyTruthyOpt env.error_description then
    "Keycloak error: " ++ err ++ " (" ++ env.error_description.getD "" ++ ")"
  else "Keycloak error: " ++ err

/-- Embeds `admin_keycloak_callback` (lines 79-160).  Returns the response
and the session left behind.  `logout()` is a full session flush;
the three `del request.session[k]` at lines 144-148 clear state, nonce
and verifier; `session.pop("kc_admin_next")` clears the stored next. -/
def admin_keycloak_callback (env : CbEnv) (s : Session) : CbResp × Session :=
  if pyTruthyOpt env.error then (CbResp.badRequest (kcErrorMsg env), s)
  else if !pyTruthyOpt env.code || !pyTruthyOpt env.state then
    (CbResp.badRequest "Missing code/state", s)
  else if !pyTruthyOpt s.kc_admin_state || env.state != s.kc_admin_state then
    (CbResp.badRequest "Invalid state", s)
  else if !pyTruthyOpt s.kc_admin_verifier then
    (CbResp.badRequest "Missing PKCE verifier", s)
  else
    match env.exchange with
    | Except.error e => (CbResp.badRequest ("Token exchange failed: " ++ e), s)
    | Except.ok _ =>
      if !pyTruthyOpt env.access_token then (CbResp.badRequest "Missing access_token", s)
      else
        match env.validation with
        | Except.error m => (CbResp.badRequest ("Token validation failed: " ++ m), s)
        | Except.ok (_, has_role) =>
          if !has_role then (CbResp.forbidden roleForbiddenMsg, emptySession)
          else
            match env.mapped_user with
            | none => (CbResp.badRequest "Failed to map Keycloak user", s)
            | some u =>
              let s1 : Session :=
                { s with kc_admin_state := none, kc_admin_nonce := none,
                         kc_admin_verifier := none }
              if !u.is_staff then (CbResp.forbidden staffForbiddenMsg, emptySession)
              else
                let s2 : Session := { s1 with kc_admin_next := none }
                match s1.kc_admin_next with
                | some n =>
                  if pyStartsWith n "/" then (CbResp.redirectTo n, s2)
                  else (CbResp.redirectTo "/admin/", s2)
                | none => (CbResp.redirectTo "/admin/", s2)

/-- Modelled from the spec: a "same-origin relative path" (the open-redirect
guard the spec prescribes for `next`) — a path starting with `/` that is
not protocol-relative (`//host/...`). -/
def isSameOriginRelativePath (p : String) : Bool :=
  pyStartsWith p "/" && !pyStartsWith p "//"


/-- The GET-parameter and session preconditions of the callback up to and
including the PKCE-verifier check (lines 84-104): no provider error, code
and state present, state matching the stored state, verifier stored. -/
def cbPassesChecks (env : CbEnv) (s : Session) : Prop :=
  pyTruthyOpt env.error = false ∧ pyTruthyOpt env.code = true
  ∧ pyTruthyOpt env.state = true ∧ pyTruthyOpt s.kc_admin_state = true
  ∧ env.state = s.kc_admin_state ∧ pyTruthyOpt s.kc_admin_verifier = true

/-! ### Concrete fixtures shared by witnesses and counterexamples -/

def cfgEx : KeycloakConfig := ⟨"https://kc.example/auth", "r", "web", "mcp", 60⟩

def cacheEx : JwksCache := ⟨none, 0, 3600⟩

def jwkK1 : Jwk := ⟨"k1", true, "m1"⟩

def jwkK2 : Jwk := ⟨"k2", true, "m2"⟩

def primaryDocEx : JwksDoc := some [jwkK1]

def altDocEx : JwksDoc := some [jwkK2]

/-- Environment in which the primary JWKS URL serves a document holding
only `k1` and every other URL (in particular the legacy-path alternate)
serves a document holding `k2`. -/
def fetchSplitEx : String → Except String JwksDoc :=
  fun u => if u = cfgEx.jwks_url then Except.ok primaryDocEx else Except.ok altDocEx

/-- Environment in which every JWKS fetch raises. -/
def fetchFailEx : String → Except String JwksDoc :=
  fun _ => Except.error "requests.exceptions.ConnectionError"

/-- A token signed by `k2` with the primary issuer and correct audience. -/
def tokK2Ex : Token :=
  ⟨true, some "k2", ["m2"], none, none,
   [("iss", JVal.str "https://kc.example/auth/realms/r"), ("aud", JVal.str "web")]⟩

def reqEx : MwRequest := ⟨"GET", "/api/layers/", false, false, "Bearer abc"⟩

def staffUserEx : DjangoUser := ⟨"alice", "a@x", "A", "B", true, true, false, false, none⟩

def sEx : Session := ⟨some "st", some "no", some "ve", none⟩

/-- Callback GET/externals for a run whose token-endpoint POST raises. -/
def envExchangeFailEx : CbEnv :=
  ⟨none, none, some "code", some "st", Except.error "boom", none,
   Except.error "unused", none⟩

/-- Callback GET/externals for a fully successful run. -/
def envOkEx : CbEnv :=
  ⟨none, none, some "code", some "st", Except.ok (), some "tok",
   Except.ok ([], true), some staffUserEx⟩

/-- A session whose stored next path is protocol-relative. -/
def sEvilEx : Session := ⟨some "st", some "no", some "ve", some "//evil.example/a"⟩

/-! ## Supporting lemmas -/

theorem jvalIsStrEq_eq_true_iff (v : JVal) (s : String) :
    jvalIsStrEq v s = true ↔ v = JVal.str s := by
  cases v <;> simp [jvalIsStrEq]

theorem any_jvalIsStrEq_iff (l : List JVal) (s : String) :
    (l.any (fun v => jvalIsStrEq v s)) = true ↔ JVal.str s ∈ l := by
  rw [List.any_eq_true]
  constructor
  · rintro ⟨v, hv, he⟩
    rw [jvalIsStrEq_eq_true_iff] at he
    exact he ▸ hv
  · intro h
    exact ⟨JVal.str s, h, by simp [jvalIsStrEq]⟩

theorem rolesListHas_eq_true_iff (v : Option JVal) (role : String) :
    rolesListHas v role = true ↔ ∃ l, v = some (JVal.arr l) ∧ JVal.str role ∈ l := by
  constructor
  · intro h
    match v with
    | some (JVal.arr l) =>
      refine ⟨l, rfl, ?_⟩
      rw [← any_jvalIsStrEq_iff]
      simpa [rolesListHas] using h
    | none => simp [rolesListHas] at h
    | some (JVal.str _) => simp [rolesListHas] at h
    | some (JVal.num _) => simp [rolesListHas] at h
    | some (JVal.bool _) => simp [rolesListHas] at h
    | some JVal.null => simp [rolesListHas] at h
    | some (JVal.obj _) => simp [rolesListHas] at h
  · rintro ⟨l, rfl, hm⟩
    simp only [rolesListHas]
    rw [any_jvalIsStrEq_iff]
    exact hm


theorem splitAux_words_good (cs : List Char) :
    ∀ acc, (∀ c ∈ acc, isPySpace c = false) →
      ∀ w ∈ splitAux cs acc, w ≠ [] ∧ ∀ c ∈ w, isPySpace c = false := by
  induction cs with
  | nil =>
    intro acc hacc w hw
    simp only [splitAux] at hw
    by_cases he : acc.isEmpty
    · rw [if_pos he] at hw
      simp at hw
    · rw [if_neg he, List.mem_singleton] at hw
      subst hw
      refine ⟨?_, ?_⟩
      · simpa [List.isEmpty_iff] using he
      · intro c hc
        exact hacc c (List.mem_reverse.mp hc)
  | cons c cs ih =>
    intro acc hacc w hw
    simp only [splitAux] at hw
    by_cases hs : isPySpace c
    · rw [if_pos hs] at hw
      by_cases he : acc.isEmpty
      · rw [if_pos he] at hw
        exact ih [] (by simp) w hw
      · rw [if_neg he] at hw
        rcases List.mem_cons.mp hw with h1 | h2
        · subst h1
          refine ⟨by simpa [List.isEmpty_iff] using he, ?_⟩
          intro x hx
          exact hacc x (List.mem_reverse.mp hx)
        · exact ih [] (by simp) w h2
    · rw [if_neg hs] at hw
      refine ih (c :: acc) ?_ w hw
      intro x hx
      rcases List.mem_cons.mp hx with h1 | h2
      · subst h1
        simpa using hs
      · exact hacc x h2

/-- A whitespace-free nonempty list of characters survives `pyStrip`. -/
theorem pyStrip_of_no_space (l : List Char) (h : ∀ c ∈ l, isPySpace c = false) :
    pyStrip (String.mk l) = String.mk l := by
  have h1 : l.dropWhile isPySpace = l := by
    cases l with
    | nil => rfl
    | cons c cs => simp [List.dropWhile_cons, h c (by simp)]
  have h2 : l.reverse.dropWhile isPySpace = l.reverse := by
    cases hr : l.reverse with
    | nil => rfl
    | cons c cs =>
      have hc : c ∈ l := by
        rw [← List.mem_reverse, hr]
        simp
      simp [List.dropWhile_cons, h c hc]
  unfold pyStrip
  have hd : (String.mk l).data = l := rfl
  rw [hd, h1, h2, List.reverse_reverse]

/-- Every token of `pySplit` is nonempty and whitespace-free. -/
theorem pySplit_tokens_good (s : String) :
    ∀ t ∈ pySplit s, t ≠ "" ∧ pyStrip t = t := by
  intro t ht
  simp only [pySplit, List.mem_map] at ht
  obtain ⟨w, hw, rfl⟩ := ht
  obtain ⟨hne, hns⟩ := splitAux_words_good s.data [] (by simp) w hw
  refine ⟨?_, pyStrip_of_no_space w hns⟩
  intro hcon
  apply hne
  have hdata : (String.mk w).data = ("" : String).data := by rw [hcon]
  simpa using hdata

/-- `pySplit` of the empty string is empty. -/
theorem pySplit_empty : pySplit "" = [] := rfl


theorem audClaimHit_iff (p : Dict) (cid : String) :
    audClaimHit p cid = true ↔
      pyDictGet p "aud" = some (JVal.str cid)
      ∨ ∃ l, pyDictGet p "aud" = some (JVal.arr l) ∧ JVal.str cid ∈ l := by
  unfold audClaimHit
  cases h : pyDictGet p "aud" with
  | none => simp
  | some v =>
    cases v with
    | str a => simp [beq_iff_eq]
    | arr l =>
      rw [any_jvalIsStrEq_iff]
      simp
    | num n => simp
    | bool b => simp
    | null => simp
    | obj o => simp

theorem azpClaimHit_iff (p : Dict) (cid : String) :
    azpClaimHit p cid = true ↔ pyDictGet p "azp" = some (JVal.str cid) := by
  unfold azpClaimHit
  cases h : pyDictGet p "azp" with
  | none => simp
  | some v => cases v <;> simp [beq_iff_eq]

theorem _audience_ok_iff (p : Dict) (cid : String) :
    _audience_ok p cid = true ↔ audienceSpec p cid := by
  unfold _audience_ok audienceSpec
  by_cases ha : audClaimHit p cid = true
  · rw [if_pos ha]
    rcases (audClaimHit_iff p cid).mp ha with h | h
    · simp [h]
    · simp [h]
  · rw [if_neg ha, azpClaimHit_iff]
    constructor
    · intro h
      exact Or.inr (Or.inr h)
    · rintro (h | h | h)
      · exact absurd ((audClaimHit_iff p cid).mpr (Or.inl h)) ha
      · exact absurd ((audClaimHit_iff p cid).mpr (Or.inr h)) ha
      · exact h

theorem clientRoleHit_iff (p : Dict) (cid role : String) :
    clientRoleHit p cid role = true ↔
      ∃ ro co l, pyDictGet p "resource_access" = some (JVal.obj ro)
        ∧ pyDictGet ro cid = some (JVal.obj co)
        ∧ pyDictGet co "roles" = some (JVal.arr l) ∧ JVal.str role ∈ l := by
  unfold clientRoleHit
  cases hra : pyDictGet p "resource_access" with
  | none =>
    simp [Option.getD_none, show pyDictGet ([] : Dict) cid = none from rfl]
  | some v =>
    cases v with
    | obj ro =>
      simp only [Option.getD_some]
      cases hcl : pyDictGet ro cid with
      | none => simp [hcl]
      | some w =>
        cases w with
        | obj co =>
          rw [rolesListHas_eq_true_iff]
          constructor
          · rintro ⟨l, hl, hm⟩
            exact ⟨ro, co, l, rfl, hcl, hl, hm⟩
          · rintro ⟨ro2, co2, l, hro, hco, hl, hm⟩
            obtain rfl : ro = ro2 := by simpa using hro
            rw [hcl] at hco
            obtain rfl : co = co2 := by simpa using hco
            exact ⟨l, hl, hm⟩
        | str a => simp [hcl]
        | num n => simp [hcl]
        | bool b => simp [hcl]
        | null => simp [hcl]
        | arr l => simp [hcl]
    | str a => simp
    | num n => simp
    | bool b => simp
    | null => simp
    | arr l => simp

/-- The realm-roles half of `_token_has_role`, characterised against the
first disjunct of `roleSpec`. -/
theorem realm_roles_hit_iff (p : Dict) (raFields : Dict) (role : String)
    (hra : pyDictGet p "realm_access" = some (JVal.obj raFields)) :
    rolesListHas (pyDictGet raFields "roles") role = true ↔
      ∃ o l, pyDictGet p "realm_access" = some (JVal.obj o)
        ∧ pyDictGet o "roles" = some (JVal.arr l) ∧ JVal.str role ∈ l := by
  rw [rolesListHas_eq_true_iff]
  constructor
  · rintro ⟨l, hl, hm⟩
    exact ⟨raFields, l, hra, hl, hm⟩
  · rintro ⟨o, l, ho, hl, hm⟩
    rw [hra] at ho
    obtain rfl : raFields = o := by simpa using ho
    exact ⟨l, hl, hm⟩

/-- On a well-formed (absent-or-dict) `realm_access`, `_token_has_role`
returns `Except.ok` of the disjunction of the two role checks. -/
theorem _token_has_role_ok (p : Dict) (cid role : String)
    (h : realmAccessWellFormed p) :
    ∃ b, _token_has_role p cid role = Except.ok b
      ∧ (b = true ↔ roleSpec p cid role) := by
  unfold realmAccessWellFormed at h
  cases hra : pyDictGet p "realm_access" with
  | none =>
    have hres : _token_has_role p cid role =
        if clientRoleHit p cid role then Except.ok true else Except.ok false := by
      unfold _token_has_role
      rw [hra]
      rfl
    by_cases hc : clientRoleHit p cid role = true
    · refine ⟨true, by rw [hres, if_pos hc], ?_⟩
      simp only [true_iff]
      unfold roleSpec
      exact Or.inr ((clientRoleHit_iff p cid role).mp hc)
    · refine ⟨false, by rw [hres, if_neg hc], ?_⟩
      constructor
      · intro hf
        exact absurd hf (by decide)
      · intro hs
        exfalso
        unfold roleSpec at hs
        rcases hs with ⟨o, l, ho, _⟩ | hcl
        · rw [hra] at ho
          cases ho
        · exact hc ((clientRoleHit_iff p cid role).mpr hcl)
  | some v =>
    rw [hra] at h
    cases v with
    | obj raFields =>
      have hres : _token_has_role p cid role =
          if rolesListHas (pyDictGet raFields "roles") role then Except.ok true
          else if clientRoleHit p cid role then Except.ok true else Except.ok false := by
        unfold _token_has_role
        rw [hra]
        rfl
      by_cases hrm : rolesListHas (pyDictGet raFields "roles") role = true
      · refine ⟨true, by rw [hres, if_pos hrm], ?_⟩
        simp only [true_iff]
        unfold roleSpec
        exact Or.inl ((realm_roles_hit_iff p raFields role hra).mp hrm)
      · rw [hres, if_neg hrm]
        by_cases hc : clientRoleHit p cid role = true
        · refine ⟨true, by rw [if_pos hc], ?_⟩
          simp only [true_iff]
          unfold roleSpec
          exact Or.inr ((clientRoleHit_iff p cid role).mp hc)
        · refine ⟨false, by rw [if_neg hc], ?_⟩
          constructor
          · intro hf
            exact absurd hf (by decide)
          · intro hs
            exfalso
            unfold roleSpec at hs
            rcases hs with hrd | hcl
            · exact hrm ((realm_roles_hit_iff p raFields role hra).mpr hrd)
            · exact hc ((clientRoleHit_iff p cid role).mpr hcl)
    | str a => exact absurd h (by simp)
    | num n => exact absurd h (by simp)
    | bool b => exact absurd h (by simp)
    | null => exact absurd h (by simp)
    | arr l => exact absurd h (by simp)

/-- C6: the audience check accepts exactly when the `aud` claim (string or
list element) equals the configured client id or the `azp` claim equals
it; in every other case validation fails with `Invalid audience`. -/
theorem C6_audience (p : Dict) (cfg : KeycloakConfig) :
    (_audience_ok p cfg.client_id = true ↔ audienceSpec p cfg.client_id)
    ∧ (¬ audienceSpec p cfg.client_id →
        post_decode cfg p = Except.error (VErr.tokenError "Invalid audience")) := by
  refine ⟨_audience_ok_iff p cfg.client_id, ?_⟩
  intro hns
  have hf : _audience_ok p cfg.client_id = false := by
    rcases Bool.eq_false_or_eq_true (_audience_ok p cfg.client_id) with h | h
    · exact absurd ((_audience_ok_iff p cfg.client_id).mp h) hns
    · exact h
  unfold post_decode
  rw [hf]
  simp

/-- Witness for `C6_audience`: a payload whose `aud` is a different client
and with no `azp` is rejected with `Invalid audience`. -/
theorem C6_audience_witness :
    post_decode ⟨"https://kc.example/auth", "r", "web", "mcp", 60⟩
        [("aud", JVal.num 1)] =
      Except.error (VErr.tokenError "Invalid audience") := by
  refine (C6_audience [("aud", JVal.num 1)] _).2 ?_
  rintro (h | ⟨l, h, _⟩ | h)
  · rw [show pyDictGet [("aud", JVal.num 1)] "aud" = some (JVal.num 1) from rfl] at h
    simp at h
  · rw [show pyDictGet [("aud", JVal.num 1)] "aud" = some (JVal.num 1) from rfl] at h
    simp at h
  · rw [show pyDictGet [("aud", JVal.num 1)] "azp" = none from rfl] at h
    cases h

/-- C7 (amended): on payloads whose `realm_access` is absent or a mapping,
role extraction returns `Except.ok true` exactly when the required role
is in the realm role list or the client-scoped role list and
`Except.ok false` otherwise; but when `realm_access` is present and not a
mapping, it raises (`AttributeError`) instead of returning `false`. -/
theorem C7_role_extraction (p : Dict) (cid role : String) :
    (realmAccessWellFormed p →
      ((_token_has_role p cid role = Except.ok true) ↔ roleSpec p cid role)
      ∧ ((_token_has_role p cid role = Except.ok false) ↔ ¬ roleSpec p cid role))
    ∧ (¬ realmAccessWellFormed p →
        ∃ m, _token_has_role p cid role = Except.error m) := by
  constructor
  · intro hwf
    obtain ⟨b, hb, hiff⟩ := _token_has_role_ok p cid role hwf
    constructor
    · rw [hb]
      constructor
      · intro h
        exact hiff.mp (by simpa using h.symm)
      · intro h
        rw [hiff.mpr h]
    · rw [hb]
      constructor
      · intro h
        obtain rfl : b = false := by simpa using h.symm
        intro hs
        exact absurd (hiff.mpr hs) (by simp)
      · intro h
        have hbf : b = false := by
          rcases Bool.eq_false_or_eq_true b with hb2 | hb2
          · exact absurd (hiff.mp hb2) h
          · exact hb2
        rw [hbf]
  · intro hnwf
    unfold realmAccessWellFormed at hnwf
    unfold _token_has_role
    cases hra : pyDictGet p "realm_access" with
    | none =>
      rw [hra] at hnwf
      simp at hnwf
    | some v =>
      rw [hra] at hnwf
      cases v with
      | obj o => simp at hnwf
      | str a => exact ⟨_, rfl⟩
      | num n => exact ⟨_, rfl⟩
      | bool b => exact ⟨_, rfl⟩
      | null => exact ⟨_, rfl⟩
      | arr l => exact ⟨_, rfl⟩

/-- Witness for `C7_role_extraction`: a payload with the role in the realm
list yields `Except.ok true`. -/
theorem C7_role_extraction_witness :
    _token_has_role [("realm_access", JVal.obj [("roles", JVal.arr [JVal.str "mcp"])])]
        "web" "mcp" = Except.ok true := by
  have hwf : realmAccessWellFormed
      [("realm_access", JVal.obj [("roles", JVal.arr [JVal.str "mcp"])])] := by
    unfold realmAccessWellFormed
    rw [show pyDictGet [("realm_access", JVal.obj [("roles", JVal.arr [JVal.str "mcp"])])]
        "realm_access" = some (JVal.obj [("roles", JVal.arr [JVal.str "mcp"])]) from rfl]
    trivial
  refine ((C7_role_extraction _ "web" "mcp").1 hwf).1.mpr ?_
  unfold roleSpec
  exact Or.inl ⟨[("roles", JVal.arr [JVal.str "mcp"])], [JVal.str "mcp"], rfl, rfl, by simp⟩

/-- Counterexample to C7 as stated: on a payload whose `realm_access` is a
string (so the role appears in neither role list), `_token_has_role` does
not return `false` — it raises an `AttributeError` that nothing in
`validate_keycloak_jwt` catches. -/
theorem C7_counterexample :
    _token_has_role [("realm_access", JVal.str "oops")] "web" "mcp" =
        Except.error "AttributeError: 'str' object has no attribute 'get'"
      ∧ ¬ roleSpec [("realm_access", JVal.str "oops")] "web" "mcp" := by
  constructor
  · rfl
  · unfold roleSpec
    rintro (⟨o, l, ho, _⟩ | ⟨ro, co, l, hro, _⟩)
    · rw [show pyDictGet [("realm_access", JVal.str "oops")] "realm_access" =
          some (JVal.str "oops") from rfl] at ho
      simp at ho
    · rw [show pyDictGet [("realm_access", JVal.str "oops")] "resource_access" =
          none from rfl] at hro
      cases hro

/-- `_extract_bearer_token` in closed form: the `strip()` on the second
token and the `or None` are no-ops because split tokens are nonempty and
whitespace-free, and the empty-header guard is subsumed by the split. -/
theorem extract_bearer_eq (h : String) :
    _extract_bearer_token h =
      match pySplit h with
      | [p0, p1] => if pyLower p0 = "bearer" then some p1 else none
      | _ => none := by
  by_cases hh : h = ""
  · subst hh
    rfl
  · unfold _extract_bearer_token
    rw [if_neg hh]
    cases hs : pySplit h with
    | nil => rfl
    | cons p0 rest =>
      cases rest with
      | nil => rfl
      | cons p1 rest2 =>
        cases rest2 with
        | nil =>
          have hgood := pySplit_tokens_good h p1 (by rw [hs]; simp)
          show (if pyLower p0 = "bearer" then
                  if pyStrip p1 = "" then none else some (pyStrip p1)
                else none) =
              (if pyLower p0 = "bearer" then some p1 else none)
          by_cases hb : pyLower p0 = "bearer"
          · rw [if_pos hb, if_pos hb, hgood.2, if_neg hgood.1]
          · rw [if_neg hb, if_neg hb]
        | cons q qs => rfl

/-- C9: the header check passes exactly on headers that split into two
whitespace-separated tokens whose first is case-insensitively `Bearer`
(the second is then automatically nonempty), and in every other case
`validate_keycloak_jwt` fails with `Missing bearer token` before touching
the token, the key cache or the network. -/
theorem C9_bearer_header (h : String) :
    ((∃ t, _extract_bearer_token h = some t) ↔
      ∃ b t, pySplit h = [b, t] ∧ pyLower b = "bearer")
    ∧ (∀ b t, pySplit h = [b, t] → pyLower b = "bearer" →
        _extract_bearer_token h = some t ∧ t ≠ "")
    ∧ (_extract_bearer_token h = none →
        ∀ cfg cache fetch tokenOf now,
          validate_keycloak_jwt cfg cache fetch tokenOf now h =
            ⟨Except.error (VErr.tokenError "Missing bearer token"), cache, 0⟩) := by
  refine ⟨?_, ?_, ?_⟩
  · rw [extract_bearer_eq]
    constructor
    · rintro ⟨t, ht⟩
      cases hs : pySplit h with
      | nil => rw [hs] at ht; cases ht
      | cons p0 rest =>
        cases rest with
        | nil => rw [hs] at ht; cases ht
        | cons p1 rest2 =>
          cases rest2 with
          | nil =>
            rw [hs] at ht
            by_cases hb : pyLower p0 = "bearer"
            · exact ⟨p0, p1, rfl, hb⟩
            · exfalso
              have ht2 : (if pyLower p0 = "bearer" then some p1 else none) = some t := ht
              rw [if_neg hb] at ht2
              cases ht2
          | cons q qs => rw [hs] at ht; cases ht
    · rintro ⟨b, t, hs, hb⟩
      rw [hs]
      refine ⟨t, ?_⟩
      show (if pyLower b = "bearer" then some t else none) = some t
      rw [if_pos hb]
  · intro b t hs hb
    have hgood := pySplit_tokens_good h t (by rw [hs]; simp)
    refine ⟨?_, hgood.1⟩
    rw [extract_bearer_eq, hs]
    show (if pyLower b = "bearer" then some t else none) = some t
    rw [if_pos hb]
  · intro hnone cfg cache fetch tokenOf now
    unfold validate_keycloak_jwt
    rw [hnone]

/-- Witness for `C9_bearer_header`: the header `bEaReR abc` (any casing,
extra internal whitespace) passes the check with token `abc`, and the
header `Token abc` fails with `Missing bearer token` without a fetch. -/
theorem C9_bearer_header_witness :
    _extract_bearer_token "bEaReR  abc" = some "abc"
    ∧ (validate_keycloak_jwt ⟨"https://kc.example/auth", "r", "web", "mcp", 60⟩
          ⟨none, 0, 3600⟩ (fun _ => Except.error "unused")
          (fun _ => ⟨true, some "k1", [], none, none, []⟩) 0 "Token abc" =
        ⟨Except.error (VErr.tokenError "Missing bearer token"), ⟨none, 0, 3600⟩, 0⟩) := by
  constructor
  · exact ((C9_bearer_header "bEaReR  abc").2.1 "bEaReR" "abc" rfl rfl).1
  · exact (C9_bearer_header "Token abc").2.2 rfl _ _ _ _ _

/-- A fresh cached set is returned with no fetch and no state change. -/
theorem get_fresh (c : JwksCache) (fetch : String → Except String JwksDoc)
    (now : Int) (url : String) (j : JwksDoc) (hj : c.jwks = some j)
    (hlt : now - c.fetched_at < c.ttl_seconds) :
    JwksCache.get c fetch now url = (Except.ok j, c, 0) := by
  unfold JwksCache.get
  rw [hj]
  simp [hlt]

/-- An absent or expired cached set triggers exactly one (successful)
fetch, and the cached set and timestamp are replaced. -/
theorem get_stale (c : JwksCache) (fetch : String → Except String JwksDoc)
    (now : Int) (url : String) (d : JwksDoc)
    (hst : c.jwks = none ∨ ¬ now - c.fetched_at < c.ttl_seconds)
    (hf : fetch url = Except.ok d) :
    JwksCache.get c fetch now url =
      (Except.ok d, { c with jwks := some d, fetched_at := now }, 1) := by
  unfold JwksCache.get
  rcases hst with hn | hexp
  · rw [hn, hf]
  · cases hj : c.jwks with
    | none => rw [hf]
    | some j =>
      simp [hexp, hf]

/-- While every call instant is within the TTL of the cached timestamp,
a whole sequence of calls performs no fetch and leaves the cache intact. -/
theorem runGetCalls_fresh (fetch : String → Except String JwksDoc)
    (url : String) (ts : List Int) :
    ∀ c : JwksCache, ∀ j, c.jwks = some j →
      (∀ t ∈ ts, t - c.fetched_at < c.ttl_seconds) →
      runGetCalls c fetch url ts = (c, 0) := by
  induction ts with
  | nil =>
    intro c j hj hts
    rfl
  | cons t ts ih =>
    intro c j hj hts
    unfold runGetCalls
    rw [get_fresh c fetch t url j hj (hts t (by simp))]
    show (match runGetCalls c fetch url ts with
          | (c3, m) => (c3, 0 + m)) = (c, 0)
    rw [ih c j hj (fun x hx => hts x (by simp [hx]))]

/-- C5: a call on a cached set younger than the TTL returns it without
fetching; otherwise one (successful) fetch replaces set and timestamp;
consequently a call sequence fetches zero times while the TTL has not
elapsed, and exactly once when one call falls past the TTL (all later
calls being within the TTL of the refresh). -/
theorem C5_jwks_cache (fetch : String → Except String JwksDoc) (url : String) :
    (∀ c : JwksCache, ∀ now j, c.jwks = some j →
        now - c.fetched_at < c.ttl_seconds →
        JwksCache.get c fetch now url = (Except.ok j, c, 0))
    ∧ (∀ c : JwksCache, ∀ now d,
        (c.jwks = none ∨ ¬ now - c.fetched_at < c.ttl_seconds) →
        fetch url = Except.ok d →
        JwksCache.get c fetch now url =
          (Except.ok d, { c with jwks := some d, fetched_at := now }, 1))
    ∧ (∀ c : JwksCache, ∀ j (ts : List Int), c.jwks = some j →
        (∀ t ∈ ts, t - c.fetched_at < c.ttl_seconds) →
        runGetCalls c fetch url ts = (c, 0))
    ∧ (∀ c : JwksCache, ∀ j d (ts1 : List Int) (tExp : Int) (ts2 : List Int),
        c.jwks = some j →
        (∀ t ∈ ts1, t - c.fetched_at < c.ttl_seconds) →
        ¬ tExp - c.fetched_at < c.ttl_seconds →
        fetch url = Except.ok d →
        (∀ t ∈ ts2, t - tExp < c.ttl_seconds) →
        runGetCalls c fetch url (ts1 ++ tExp :: ts2) =
          ({ c with jwks := some d, fetched_at := tExp }, 1)) := by
  refine ⟨fun c now j hj hlt => get_fresh c fetch now url j hj hlt,
          fun c now d hst hf => get_stale c fetch now url d hst hf,
          fun c j ts hj hts => runGetCalls_fresh fetch url ts c j hj hts,
          ?_⟩
  intro c j d ts1 tExp ts2 hj hts1 hexp hf hts2
  induction ts1 generalizing c with
  | nil =>
    rw [List.nil_append]
    unfold runGetCalls
    rw [get_stale c fetch tExp url d (Or.inr hexp) hf]
    show (match runGetCalls { c with jwks := some d, fetched_at := tExp } fetch url ts2 with
          | (c3, m) => (c3, 1 + m)) =
        ({ c with jwks := some d, fetched_at := tExp }, 1)
    rw [runGetCalls_fresh fetch url ts2 { c with jwks := some d, fetched_at := tExp } d rfl
      (fun x hx => hts2 x hx)]
  | cons t ts1 ih =>
    rw [List.cons_append]
    unfold runGetCalls
    rw [get_fresh c fetch t url j hj (hts1 t (by simp))]
    show (match runGetCalls c fetch url (ts1 ++ tExp :: ts2) with
          | (c3, m) => (c3, 0 + m)) =
        ({ c with jwks := some d, fetched_at := tExp }, 1)
    rw [ih c hj (fun x hx => hts1 x (by simp [hx])) hexp hts2]

/-- Witness for `C5_jwks_cache`: concrete cache with TTL 3600 fetched at 0;
calls at 10 and 3599 do not fetch, a call at 3600 fetches once, and the
sequence 10, 3599, 3600, 3610 fetches exactly once in total. -/
theorem C5_jwks_cache_witness :
    (JwksCache.get ⟨some (some []), 0, 3600⟩ (fun _ => Except.ok (some [⟨"k", true, "m"⟩]))
        10 "u" = (Except.ok (some []), ⟨some (some []), 0, 3600⟩, 0))
    ∧ (JwksCache.get ⟨some (some []), 0, 3600⟩ (fun _ => Except.ok (some [⟨"k", true, "m"⟩]))
        3600 "u" =
        (Except.ok (some [⟨"k", true, "m"⟩]), ⟨some (some [⟨"k", true, "m"⟩]), 3600, 3600⟩, 1))
    ∧ (runGetCalls ⟨some (some []), 0, 3600⟩ (fun _ => Except.ok (some [⟨"k", true, "m"⟩]))
        "u" [10, 3599, 3600, 3610] =
        (⟨some (some [⟨"k", true, "m"⟩]), 3600, 3600⟩, 1)) := by
  refine ⟨(C5_jwks_cache (fun _ => Except.ok (some [⟨"k", true, "m"⟩])) "u").1
            ⟨some (some []), 0, 3600⟩ 10 (some []) rfl (by decide),
          (C5_jwks_cache (fun _ => Except.ok (some [⟨"k", true, "m"⟩])) "u").2.1
            ⟨some (some []), 0, 3600⟩ 3600 (some [⟨"k", true, "m"⟩])
            (Or.inr (by decide)) rfl,
          ?_⟩
  have h4 := (C5_jwks_cache (fun _ => Except.ok (some [⟨"k", true, "m"⟩])) "u").2.2.2
    ⟨some (some []), 0, 3600⟩ (some []) (some [⟨"k", true, "m"⟩])
    [10, 3599] 3600 [3610] rfl (by decide) (by decide) rfl (by decide)
  exact h4

/-- C4: the alternate-issuer retry is triggered only by an issuer
mismatch — signature, expiry and not-before failures of the first decode
are reported as their own `TokenError`s and never converted into an
issuer error — and when both issuer checks fail the error is exactly the
message naming the token's actual `iss` and both expected issuers. -/
theorem C4_issuer_fallback (cfg : KeycloakConfig) (t : Token)
    (material : String) (now : Int) :
    (pyjwt_decode t material cfg.issuer (max 0 cfg.clock_skew_seconds) now =
        Except.error JwtErr.expired →
      decode_stage cfg t material now = Except.error (VErr.tokenError "Token expired"))
    ∧ (pyjwt_decode t material cfg.issuer (max 0 cfg.clock_skew_seconds) now =
        Except.error JwtErr.immature →
      decode_stage cfg t material now =
        Except.error (VErr.tokenError "Token not yet valid (nbf/iat)"))
    ∧ (pyjwt_decode t material cfg.issuer (max 0 cfg.clock_skew_seconds) now =
        Except.error JwtErr.invalidSignature →
      decode_stage cfg t material now =
        Except.error (VErr.tokenError "Invalid token signature"))
    ∧ (∀ alt e,
        pyjwt_decode t material cfg.issuer (max 0 cfg.clock_skew_seconds) now =
          Except.error JwtErr.invalidIssuer →
        _alt_issuer cfg = some alt → alt ≠ cfg.issuer →
        pyjwt_decode t material alt (max 0 cfg.clock_skew_seconds) now =
          Except.error e →
        decode_stage cfg t material now =
          Except.error (VErr.tokenError
            (invalidIssuerBothMsg (jvalReprShallow (pyDictGet t.payload "iss"))
              cfg.issuer alt))) := by
  refine ⟨?_, ?_, ?_, ?_⟩
  · intro h
    simp only [decode_stage]
    rw [h]
  · intro h
    simp only [decode_stage]
    rw [h]
  · intro h
    simp only [decode_stage]
    rw [h]
  · intro alt e h halt hne h2
    simp only [decode_stage]
    rw [h, halt]
    simp [hne, h2]

/-- Witness for `C4_issuer_fallback`: a token whose signature fails is
reported as `Invalid token signature`, and a token whose `iss` matches
neither the primary nor the legacy issuer produces the dual-issuer error
message naming all three values. -/
theorem C4_issuer_fallback_witness :
    (decode_stage ⟨"https://kc.example/auth", "r", "web", "mcp", 60⟩
        ⟨true, some "k1", [], none, none, [("iss", JVal.str "https://kc.example/auth/realms/r")]⟩
        "m1" 0 =
      Except.error (VErr.tokenError "Invalid token signature"))
    ∧ (decode_stage ⟨"https://kc.example/auth", "r", "web", "mcp", 60⟩
        ⟨true, some "k1", ["m1"], none, none, [("iss", JVal.str "https://elsewhere/realms/r")]⟩
        "m1" 0 =
      Except.error (VErr.tokenError
        "Invalid issuer (iss='https://elsewhere/realms/r'). Expected 'https://kc.example/auth/realms/r' or 'https://kc.example/realms/r'")) := by
  constructor
  · exact (C4_issuer_fallback ⟨"https://kc.example/auth", "r", "web", "mcp", 60⟩
      ⟨true, some "k1", [], none, none, [("iss", JVal.str "https://kc.example/auth/realms/r")]⟩
      "m1" 0).2.2.1 rfl
  · exact (C4_issuer_fallback ⟨"https://kc.example/auth", "r", "web", "mcp", 60⟩
      ⟨true, some "k1", ["m1"], none, none, [("iss", JVal.str "https://elsewhere/realms/r")]⟩
      "m1" 0).2.2.2 "https://kc.example/realms/r" JwtErr.invalidIssuer rfl rfl
      (by decide) rfl

/-- C2 (amended): on a guarded API request, whatever the validator raises
as `TokenError` becomes a 401 JSON response carrying the diagnostic
reason and a valid token without the required role becomes a 403; but an
exception that is not a `TokenError` — in particular a key-set fetch
failure — propagates out of the middleware unconverted. -/
theorem C2_middleware_errors (cfg : KeycloakConfig) (cache : JwksCache)
    (fetch : String → Except String JwksDoc) (tokenOf : String → Token)
    (now : Int) (req : MwRequest)
    (hm : req.method ≠ "OPTIONS") (hp : pyStartsWith req.path "/api/" = true)
    (hh : req.path ≠ "/api/health/")
    (hs : (req.userAuthenticated && req.userStaff) = false) :
    (∀ m, (validate_keycloak_jwt cfg cache fetch tokenOf now req.authHeader).result =
        Except.error (VErr.tokenError m) →
      process_request cfg cache fetch tokenOf now req =
        (Except.ok (some ⟨401, "Unauthorized", m⟩),
         (validate_keycloak_jwt cfg cache fetch tokenOf now req.authHeader).cache))
    ∧ (∀ p, (validate_keycloak_jwt cfg cache fetch tokenOf now req.authHeader).result =
        Except.ok (p, false) →
      process_request cfg cache fetch tokenOf now req =
        (Except.ok (some ⟨403, "Forbidden", "Missing required role"⟩),
         (validate_keycloak_jwt cfg cache fetch tokenOf now req.authHeader).cache))
    ∧ (∀ m, (validate_keycloak_jwt cfg cache fetch tokenOf now req.authHeader).result =
        Except.error (VErr.exn m) →
      process_request cfg cache fetch tokenOf now req =
        (Except.error m,
         (validate_keycloak_jwt cfg cache fetch tokenOf now req.authHeader).cache)) := by
  refine ⟨?_, ?_, ?_⟩ <;> intro x hx <;>
    · simp only [process_request]
      rw [if_neg hm, hp]
      simp only [Bool.not_true]
      rw [if_neg (show ¬(false = true) by simp)]
      rw [if_neg hh, hs]
      rw [if_neg (show ¬(false = true) by simp)]
      rw [hx]

/-- Witness for `C2_middleware_errors`: with a JWKS environment holding
only an unknown key, the request is answered 401 with the reason
`Signing key not found`. -/
theorem C2_middleware_errors_witness :
    process_request cfgEx cacheEx fetchSplitEx (fun _ => tokK2Ex) 1000 reqEx =
      (Except.ok (some ⟨401, "Unauthorized", "Signing key not found"⟩),
       ⟨some primaryDocEx, 1000, 3600⟩) := by
  exact (C2_middleware_errors cfgEx cacheEx fetchSplitEx (fun _ => tokK2Ex) 1000 reqEx
    (by decide) rfl (by decide) rfl).1 "Signing key not found" rfl

/-- Counterexample to C2 as stated: when the key-set fetch raises, the
failure is not a `TokenError` and the middleware returns no 401 — the
exception escapes (a 500, not a 401 with a diagnostic reason). -/
theorem C2_counterexample :
    (validate_keycloak_jwt cfgEx cacheEx fetchFailEx (fun _ => tokK2Ex) 1000
        "Bearer abc").result =
      Except.error (VErr.exn "requests.exceptions.ConnectionError")
    ∧ process_request cfgEx cacheEx fetchFailEx (fun _ => tokK2Ex) 1000 reqEx =
      (Except.error "requests.exceptions.ConnectionError", cacheEx) := by
  exact ⟨rfl, rfl⟩

/-- C3 (the code bug): with an empty cache, a token whose `kid` is absent
from the primary JWKS document but present in the document served at the
alternate (legacy-path) URL — which the provider config derives and which
differs from the primary URL — validation still fails with
`Signing key not found` after a single fetch: the URL-blind single-slot
cache returns the freshly cached primary document for the alternate URL,
so the alternate document is never consulted. -/
theorem C3_alt_jwks_never_consulted :
    _alt_jwks_url cfgEx = some "https://kc.example/realms/r/protocol/openid-connect/certs"
    ∧ fetchSplitEx "https://kc.example/realms/r/protocol/openid-connect/certs" =
        Except.ok altDocEx
    ∧ find_jwk altDocEx "k2" = Except.ok (some jwkK2)
    ∧ validate_keycloak_jwt cfgEx cacheEx fetchSplitEx (fun _ => tokK2Ex) 1000
        "Bearer abc" =
      ⟨Except.error (VErr.tokenError "Signing key not found"),
       ⟨some primaryDocEx, 1000, 3600⟩, 1⟩ := by
  exact ⟨rfl, rfl, rfl, rfl⟩

/-- C1 (amended): the `LoginSession` fields are flushed on the
missing-role outcome (via `logout`) and removed on the paths that run
past user mapping; but on a token-exchange failure or a token-validation
failure the fields survive untouched, so a second callback presenting
the same state value passes the state check again and can even complete
successfully. -/
theorem C1_login_session_clearing (env : CbEnv) (s : Session)
    (h : cbPassesChecks env s) :
    (∀ e, env.exchange = Except.error e →
      admin_keycloak_callback env s =
        (CbResp.badRequest ("Token exchange failed: " ++ e), s))
    ∧ (∀ m, env.exchange = Except.ok () → pyTruthyOpt env.access_token = true →
        env.validation = Except.error m →
        admin_keycloak_callback env s =
          (CbResp.badRequest ("Token validation failed: " ++ m), s))
    ∧ (∀ p, env.exchange = Except.ok () → pyTruthyOpt env.access_token = true →
        env.validation = Except.ok (p, false) →
        admin_keycloak_callback env s = (CbResp.forbidden roleForbiddenMsg, emptySession))
    ∧ (∀ p u, env.exchange = Except.ok () → pyTruthyOpt env.access_token = true →
        env.validation = Except.ok (p, true) → env.mapped_user = some u →
        u.is_staff = true →
        (admin_keycloak_callback env s).2 = emptySession)
    ∧ (∀ e env2 p u, env.exchange = Except.error e →
        cbPassesChecks env2 s → env2.exchange = Except.ok () →
        pyTruthyOpt env2.access_token = true →
        env2.validation = Except.ok (p, true) → env2.mapped_user = some u →
        u.is_staff = true →
        ∃ tgt, (admin_keycloak_callback env2 (admin_keycloak_callback env s).2).1 =
          CbResp.redirectTo tgt) := by
  obtain ⟨h1, h2, h3, h4, h5, h6⟩ := h
  refine ⟨?_, ?_, ?_, ?_, ?_⟩
  · intro e hex
    simp [admin_keycloak_callback, h1, h2, h3, h4, h5, h6, hex]
  · intro m hex hat hval
    simp [admin_keycloak_callback, h1, h2, h3, h4, h5, h6, hex, hat, hval]
  · intro p hex hat hval
    simp [admin_keycloak_callback, h1, h2, h3, h4, h5, h6, hex, hat, hval]
  · intro p u hex hat hval hmu hstaff
    cases hnx : s.kc_admin_next with
    | none =>
      simp [admin_keycloak_callback, h1, h2, h3, h4, h5, h6, hex, hat, hval, hmu,
        hstaff, hnx, emptySession]
    | some n =>
      by_cases hsw : pyStartsWith n "/" = true
      · simp [admin_keycloak_callback, h1, h2, h3, h4, h5, h6, hex, hat, hval, hmu,
          hstaff, hnx, hsw, emptySession]
      · simp [admin_keycloak_callback, h1, h2, h3, h4, h5, h6, hex, hat, hval, hmu,
          hstaff, hnx, hsw, emptySession]
  · intro e env2 p u hex hpc2 hex2 hat2 hval2 hmu2 hstaff2
    obtain ⟨g1, g2, g3, g4, g5, g6⟩ := hpc2
    have hcb : admin_keycloak_callback env s =
        (CbResp.badRequest ("Token exchange failed: " ++ e), s) := by
      simp [admin_keycloak_callback, h1, h2, h3, h4, h5, h6, hex]
    rw [hcb]
    cases hnx : s.kc_admin_next with
    | none =>
      exact ⟨"/admin/", by
        simp [admin_keycloak_callback, g1, g2, g3, g4, g5, g6, hex2, hat2, hval2,
          hmu2, hstaff2, hnx]⟩
    | some n =>
      by_cases hsw : pyStartsWith n "/" = true
      · exact ⟨n, by
          simp [admin_keycloak_callback, g1, g2, g3, g4, g5, g6, hex2, hat2, hval2,
            hmu2, hstaff2, hnx, hsw]⟩
      · exact ⟨"/admin/", by
          simp [admin_keycloak_callback, g1, g2, g3, g4, g5, g6, hex2, hat2, hval2,
            hmu2, hstaff2, hnx, hsw]⟩

/-- Witness for `C1_login_session_clearing`: the exchange-failure run at a
concrete session returns 400 and leaves the session as it was. -/
theorem C1_login_session_clearing_witness :
    admin_keycloak_callback envExchangeFailEx sEx =
      (CbResp.badRequest ("Token exchange failed: " ++ "boom"), sEx) := by
  exact (C1_login_session_clearing envExchangeFailEx sEx
    ⟨rfl, rfl, rfl, rfl, rfl, rfl⟩).1 "boom" rfl

/-- Counterexample to C1 as stated: a callback that terminates with a
token-exchange failure leaves all `LoginSession` fields in place (the
stored state is still `some "st"`), and a second callback presenting the
same state value does not fail — it completes with a redirect. -/
theorem C1_counterexample :
    admin_keycloak_callback envExchangeFailEx sEx =
      (CbResp.badRequest "Token exchange failed: boom", sEx)
    ∧ sEx.kc_admin_state = some "st"
    ∧ admin_keycloak_callback envOkEx sEx = (CbResp.redirectTo "/admin/", emptySession) := by
  exact ⟨rfl, rfl, rfl⟩

/-- C8 (amended): at login start the next path is stored exactly when it
starts with `/` — a test that admits protocol-relative `//host/...`
values, not only same-origin relative paths — and the callback redirect
target is always either the stored next path (when it starts with `/`)
or the default `/admin/`. -/
theorem C8_next_path (st no ve p : String) (s : Session) :
    ((admin_keycloak_login false st no ve (some p) s).2.kc_admin_next =
      (if pyStartsWith p "/" then some p else s.kc_admin_next))
    ∧ (∀ env s2 t s3, admin_keycloak_callback env s2 = (CbResp.redirectTo t, s3) →
        t = "/admin/" ∨ (s2.kc_admin_next = some t ∧ pyStartsWith t "/" = true)) := by
  constructor
  · by_cases hsw : pyStartsWith p "/" = true
    · simp [admin_keycloak_login, hsw]
    · simp [admin_keycloak_login, hsw]
  · intro env s2 t s3 h
    unfold admin_keycloak_callback at h
    by_cases c1 : pyTruthyOpt env.error = true
    · rw [if_pos c1] at h
      exact absurd h (by simp)
    rw [if_neg c1] at h
    by_cases c2 : (!pyTruthyOpt env.code || !pyTruthyOpt env.state) = true
    · rw [if_pos c2] at h
      exact absurd h (by simp)
    rw [if_neg c2] at h
    by_cases c3 : (!pyTruthyOpt s2.kc_admin_state || env.state != s2.kc_admin_state) = true
    · rw [if_pos c3] at h
      exact absurd h (by simp)
    rw [if_neg c3] at h
    by_cases c4 : (!pyTruthyOpt s2.kc_admin_verifier) = true
    · rw [if_pos c4] at h
      exact absurd h (by simp)
    rw [if_neg c4] at h
    cases hex : env.exchange with
    | error e =>
      rw [hex] at h
      exact absurd h (by simp)
    | ok uu =>
      rw [hex] at h
      dsimp only at h
      by_cases c5 : (!pyTruthyOpt env.access_token) = true
      · rw [if_pos c5] at h
        exact absurd h (by simp)
      rw [if_neg c5] at h
      cases hval : env.validation with
      | error m =>
        rw [hval] at h
        exact absurd h (by simp)
      | ok pr =>
        obtain ⟨pl, hr⟩ := pr
        rw [hval] at h
        dsimp only at h
        cases hr with
        | false =>
          rw [if_pos (by simp)] at h
          exact absurd h (by simp)
        | true =>
          rw [if_neg (by simp)] at h
          cases hmu : env.mapped_user with
          | none =>
            rw [hmu] at h
            exact absurd h (by simp)
          | some u =>
            rw [hmu] at h
            dsimp only at h
            by_cases hst : (!u.is_staff) = true
            · rw [if_pos hst] at h
              exact absurd h (by simp)
            rw [if_neg hst] at h
            cases hnx : s2.kc_admin_next with
            | none =>
              rw [hnx] at h
              dsimp only at h
              simp only [Prod.mk.injEq, CbResp.redirectTo.injEq] at h
              exact Or.inl h.1.symm
            | some n =>
              rw [hnx] at h
              dsimp only at h
              by_cases hsw : pyStartsWith n "/" = true
              · rw [if_pos hsw] at h
                simp only [Prod.mk.injEq, CbResp.redirectTo.injEq] at h
                refine Or.inr ⟨?_, ?_⟩
                · rw [h.1]
                · rw [← h.1]
                  exact hsw
              · rw [if_neg hsw] at h
                simp only [Prod.mk.injEq, CbResp.redirectTo.injEq] at h
                exact Or.inl h.1.symm

/-- Witness for `C8_next_path`: applying the redirect-target clause to the
successful run over the session storing `//evil.example/a`. -/
theorem C8_next_path_witness :
    ("//evil.example/a" : String) = "/admin/"
    ∨ (sEvilEx.kc_admin_next = some "//evil.example/a"
        ∧ pyStartsWith "//evil.example/a" "/" = true) := by
  exact (C8_next_path "st" "no" "ve" "/x" sEvilEx).2 envOkEx sEvilEx
    "//evil.example/a" emptySession rfl

/-- Counterexample to C8 as stated: the protocol-relative URL
`//evil.example/a` is not a same-origin relative path, yet login stores
it as the next path, and the callback then redirects to it (an open
redirect). -/
theorem C8_counterexample :
    isSameOriginRelativePath "//evil.example/a" = false
    ∧ (admin_keycloak_login false "st" "no" "ve" (some "//evil.example/a")
        emptySession).2.kc_admin_next = some "//evil.example/a"
    ∧ (admin_keycloak_callback envOkEx sEvilEx).1 =
        CbResp.redirectTo "//evil.example/a" := by
  exact ⟨rfl, rfl, rfl⟩

/-- The update loop changes at most `email`, `first_name`, `last_name` and
`last_login`: every other field of the user is preserved. -/
theorem applyClaimUpdates_frame (u : DjangoUser) (e f l : String) (now : Int) :
    (applyClaimUpdates u e f l now).username = u.username
    ∧ (applyClaimUpdates u e f l now).is_active = u.is_active
    ∧ (applyClaimUpdates u e f l now).is_staff = u.is_staff
    ∧ (applyClaimUpdates u e f l now).is_superuser = u.is_superuser
    ∧ (applyClaimUpdates u e f l now).has_usable_password = u.has_usable_password := by
  refine ⟨?_, ?_, ?_, ?_, ?_⟩ <;>
    · simp only [applyClaimUpdates]
      repeat' split
      all_goals rfl

/-- C10: provisioning an existing user preserves `username`, `is_active`,
`is_staff`, `is_superuser` and the password usability (only email, names
and `last_login` may change), and a freshly created user is never staff,
never superuser and has an unusable password — so repeated provisioning
cannot elevate local privileges. -/
theorem C10_provisioner_frame (db : List DjangoUser) (payload : Dict)
    (now : Int) (un : String)
    (hun : usernameFromKeys ["preferred_username", "username", "email", "sub"] payload =
      some un) :
    (∀ u, db.find? (fun w => w.username == un) = some u →
      ∃ u2, (upsert_user_from_keycloak db payload now).1 = some u2
        ∧ u2.username = u.username ∧ u2.is_active = u.is_active
        ∧ u2.is_staff = u.is_staff ∧ u2.is_superuser = u.is_superuser
        ∧ u2.has_usable_password = u.has_usable_password)
    ∧ (db.find? (fun w => w.username == un) = none →
      ∃ u2, (upsert_user_from_keycloak db payload now).1 = some u2
        ∧ u2.is_staff = false ∧ u2.is_superuser = false
        ∧ u2.has_usable_password = false ∧ u2.is_active = true) := by
  constructor
  · intro u hfind
    simp only [upsert_user_from_keycloak, hun]
    simp only [hfind]
    exact ⟨_, rfl, (applyClaimUpdates_frame u _ _ _ now).1,
      (applyClaimUpdates_frame u _ _ _ now).2.1,
      (applyClaimUpdates_frame u _ _ _ now).2.2.1,
      (applyClaimUpdates_frame u _ _ _ now).2.2.2.1,
      (applyClaimUpdates_frame u _ _ _ now).2.2.2.2⟩
  · intro hfind
    simp only [upsert_user_from_keycloak, hun]
    simp only [hfind]
    exact ⟨_, rfl, rfl, rfl, rfl, rfl⟩

/-- Witness for `C10_provisioner_frame`: re-provisioning the existing
staff user `alice` keeps her staff flag, superuser flag, activity and
password state. -/
theorem C10_provisioner_frame_witness :
    ∃ u2, (upsert_user_from_keycloak [staffUserEx]
        [("preferred_username", JVal.str "alice")] 42).1 = some u2
      ∧ u2.username = staffUserEx.username ∧ u2.is_active = staffUserEx.is_active
      ∧ u2.is_staff = staffUserEx.is_staff ∧ u2.is_superuser = staffUserEx.is_superuser
      ∧ u2.has_usable_password = staffUserEx.has_usable_password := by
  exact (C10_provisioner_frame [staffUserEx] [("preferred_username", JVal.str "alice")]
    42 "alice" rfl).1 staffUserEx rfl

end MCPAuth
